import Mathlib

/-!
Verification of the research-paper-analyzer repository: a shallow embedding
of its data model (the dataclasses in Evaluation.py), the PDF text
extractor, the single-paper and comparison prompt builders, and the two
page-level orchestration flows, together with theorems settling the
specified properties.
-/

namespace PaperAnalyzer

/-- Models Python `s.startswith(p)`: character-level prefix test. -/
def str_startswith (s p : String) : Bool :=
  p.data.isPrefixOf s.data

/-- Models Python slicing `s[:n]`: the first `n` characters of `s`
(all of `s` when it is shorter). -/
def pyslice (s : String) (n : Nat) : String :=
  String.mk (s.data.take n)

/-- Models Python `o or dflt` on an `Optional[str]` value: both `None` and
the empty string (falsy in Python) are replaced by the default. -/
def py_or : Option String → String → String
  | none, dflt => dflt
  | some s, dflt => if s = "" then dflt else s

/-- Models Python `"".join(l)`: concatenation of the strings in order with
no separator. -/
def str_concat : List String → String
  | [] => ""
  | s :: rest => s ++ str_concat rest

/-- Models Python `sep.join(l)`. -/
def py_join (sep : String) : List String → String
  | [] => ""
  | [x] => x
  | x :: y :: xs => x ++ sep ++ py_join sep (y :: xs)

/-- A parsed PDF, as the extractor sees it through the PDF library:
either the parse raises an error carrying a message, or it yields the
list of per-page extracted texts in page order (a page with no embedded
text layer yields the empty string). -/
abbrev ParsedPdf := Except String (List String)

/-- Embeds `ResearchAnalyzer.extract_text_from_pdf` (Evaluation.py lines
101-107): concatenate the text of every page whose extracted text is
non-empty (Python truthiness filter); return the concatenation when it is
non-empty, otherwise the literal no-text error string; any error raised by
the parse is caught and rendered as "ERROR: " followed by its message. -/
def extract_text_from_pdf (pdf : ParsedPdf) : String :=
  match pdf with
  | .error e => "ERROR: " ++ e
  | .ok pages =>
    let text := str_concat (pages.filter (fun p => p ≠ ""))
    if text = "" then "ERROR: No extractable text found in PDF." else text

/-- Embeds the `Dataset` dataclass (Evaluation.py lines 29-33). -/
structure Dataset where
  source : String := "Not specified"
  size : String := "Not specified"
  data_type : String := "Not specified"
  processing_steps : List String := []

/-- Embeds the `Methodology` dataclass (Evaluation.py lines 36-39); its
`novelty` field is `Optional[str]` with default `None`. -/
structure Methodology where
  core_approach : String := "Not specified"
  techniques : List String := []
  novelty : Option String := none

/-- Embeds the `Results` dataclass (Evaluation.py lines 42-45); the Python
`Dict[str, Any]` is modelled as an insertion-ordered association list with
the values already rendered to strings, which is all `to_markdown` uses. -/
structure Results where
  quantitative : List (String × String) := []
  qualitative : List String := []
  benchmarks : List String := []

/-- Embeds the `FutureDirections` dataclass (Evaluation.py lines 48-50). -/
structure FutureDirections where
  author_stated : List String := []
  implied_gaps : List String := []

/-- Rounds a rational to the nearest integer, ties to even; used to model
the rounding of Python fixed-point float formatting over exact rationals. -/
def round_half_even (q : ℚ) : ℤ :=
  let fl : ℤ := ⌊q⌋
  let fr : ℚ := q - fl
  if fr < 1/2 then fl
  else if 1/2 < fr then fl + 1
  else if fl % 2 = 0 then fl else fl + 1

/-- Models the Python float format specifier `.2f` over exact rationals:
fixed-point notation with exactly two digits after the decimal point. -/
def format2f (q : ℚ) : String :=
  let n : ℤ := round_half_even (q * 100)
  let sign : String := if n < 0 then "-" else ""
  let m : Nat := n.natAbs
  sign ++ toString (m / 100) ++ "." ++
    (if m % 100 < 10 then "0" else "") ++ toString (m % 100)

/-- Embeds the `PaperAnalysis` dataclass (Evaluation.py lines 53-62); the
fields `title`, `year`, `url`, `confidence_score` and `missing_sections`
carry no default in the source, so none is given here. The Python `float`
score is modelled as an exact rational. -/
structure PaperAnalysis where
  title : String
  year : Int
  url : Option String
  methodology : Methodology
  dataset : Dataset
  results : Results
  future_directions : FutureDirections
  confidence_score : ℚ
  missing_sections : List String

/-- The list of markdown lines built by `PaperAnalysis.to_markdown`
(Evaluation.py lines 65-93), element for element. -/
def mdList (p : PaperAnalysis) : List String :=
  [ "# " ++ p.title ++ " (" ++ toString p.year ++ ")",
    "**Link**: " ++ py_or p.url "Not found" ++ "\n",
    "## Methodology",
    "* Core approach: " ++ p.methodology.core_approach,
    "* Techniques:" ]
  ++ p.methodology.techniques.map (fun tech => "  - " ++ tech)
  ++ [ "* Novelty: " ++ py_or p.methodology.novelty "Not specified" ++ "\n",
    "## Dataset",
    "* Source: " ++ p.dataset.source,
    "* Size/Type: " ++ p.dataset.size ++ " | " ++ p.dataset.data_type,
    "* Processing:" ]
  ++ p.dataset.processing_steps.map (fun step => "  - " ++ step)
  ++ [ "\n## Results", "* Quantitative:" ]
  ++ p.results.quantitative.map (fun kv => "  - " ++ kv.1 ++ ": " ++ kv.2)
  ++ [ "* Qualitative:" ]
  ++ p.results.qualitative.map (fun obs => "  - " ++ obs)
  ++ [ "* Benchmarks:" ]
  ++ p.results.benchmarks.map (fun bench => "  - " ++ bench)
  ++ [ "\n## Future Directions", "* Author-stated:" ]
  ++ p.future_directions.author_stated.map (fun gap => "  - " ++ gap)
  ++ [ "* Implied gaps:" ]
  ++ p.future_directions.implied_gaps.map (fun gap => "  - " ++ gap)
  ++ [ "\n**Confidence Score**: " ++ format2f p.confidence_score ++ "%\n",
    "## Missing Data" ]
  ++ p.missing_sections.map (fun sect => "- " ++ sect)

/-- Embeds `PaperAnalysis.to_markdown` (Evaluation.py lines 64-94):
the markdown lines joined with a newline separator. -/
def to_markdown (p : PaperAnalysis) : String :=
  py_join "\n" (mdList p)

/-- The fixed text of the single-paper prompt before the interpolated
paper text (Evaluation.py lines 110-124, including the indentation the
triple-quoted f-string carries). -/
def analyzePromptPrefix : String :=
  "\n        You are an expert in summarizing and analyzing research papers. Based on the text extracted from a research paper, generate a detailed and structured literature review. Follow this format:\n\n        **Literature Review Structure**\n        - **Title of the Paper:** (Extract the title)\n        - **Year of the Paper:** (Extract the publication year)\n        - **Methodology:** (Summarize the methodology used)\n        - **Dataset:** (Describe dataset details including size and source)\n        - **Results:** (Highlight key results)\n        - **Future Work/Research Gaps:** (Identify proposed future work)\n        - **Insights:** (Provide additional observations)\n        - **Missing Sections:** (If any sections are missing, state them clearly)\n\n        **Paper text (truncated for analysis):**\n        "

/-- The fixed text of the single-paper prompt after the interpolated paper
text (Evaluation.py line 125). -/
def analyzePromptSuffix : String := "\n        "

/-- Embeds the prompt construction of `ResearchAnalyzer.analyze_paper`
(Evaluation.py lines 109-125): the fixed preamble, the source text
truncated to its first 8000 characters, and the fixed tail. The model
call itself is external; the prompt is the repository-owned part. -/
def analyze_paper_prompt (text : String) : String :=
  analyzePromptPrefix ++ pyslice text 8000 ++ analyzePromptSuffix

/-- Embeds the single-paper page flow (Evaluation.py lines 156-171): the
extracted text is kept, and analysis runs, only when it does not start
with the `ERROR` marker. `some prompt` means `analyze_paper` is invoked
with that prompt; `none` means it is never invoked for this file. -/
def singlePaperFlow (pdf : ParsedPdf) : Option String :=
  let pdf_text := extract_text_from_pdf pdf
  if str_startswith pdf_text "ERROR" then none
  else some (analyze_paper_prompt pdf_text)

/-- The fixed preamble of the comparison prompt
(Research Paper Comparison.py lines 41-45). -/
def comparePreamble : String :=
  "You are an expert in comparing and analyzing research papers. Given the following texts extracted from research papers, provide a comprehensive comparative analysis. Focus on similarities and differences in their methodology, dataset, results, and future research directions.\n\n"

/-- The closing instruction of the comparison prompt
(Research Paper Comparison.py line 48). -/
def compareClosing : String :=
  "Provide your analysis in a structured, detailed, and easy-to-understand format."

/-- One labelled paper block of the comparison prompt: the body of the
loop in `compare_papers` (Research Paper Comparison.py lines 46-47) for
1-based index `i`. -/
def paperBlock (i : Nat) (text : String) : String :=
  "Paper " ++ toString i ++ " (truncated):\n" ++ pyslice text 4000 ++ "\n\n"

/-- The concatenation of the labelled paper blocks, numbering from `i`:
the loop of `compare_papers` unrolled over the remaining texts. -/
def paperBlocks : Nat → List String → String
  | _, [] => ""
  | i, t :: ts => paperBlock i t ++ paperBlocks (i + 1) ts

/-- The labelled paper blocks as a list, numbering from `i`; used to state
properties of `paperBlocks` block by block. -/
def blockList : Nat → List String → List String
  | _, [] => []
  | i, t :: ts => paperBlock i t :: blockList (i + 1) ts

/-- Embeds the prompt construction of `ResearchAnalyzer.compare_papers`
(Research Paper Comparison.py lines 40-48): preamble, one block per text
labelled `Paper 1`, `Paper 2`, ... in list order, then the closing
instruction. -/
def compare_papers_prompt (texts : List String) : String :=
  comparePreamble ++ paperBlocks 1 texts ++ compareClosing

/-- The comparison set built by the upload loop
(Research Paper Comparison.py lines 95-106): the extraction results that
do not start with the `ERROR` marker, in upload order. -/
def comparisonTexts (extractions : List String) : List String :=
  extractions.filter (fun t => !(str_startswith t "ERROR"))

/-- Outcome of one run of the comparison page for a batch of uploads. -/
inductive CompareOutcome : Type where
  | rejected : CompareOutcome
  | incomplete : CompareOutcome
  | invoked : String → CompareOutcome
deriving DecidableEq, Repr

/-- Embeds the comparison page flow (Research Paper Comparison.py lines
91-112) on the list of per-file extraction results: a batch outside the
2-5 bound is `rejected` with a validation error and no model call; when
some file failed extraction the set of kept texts is shorter than the
batch and the flow ends `incomplete`, again without a model call; only
when every extraction succeeded is the model `invoked`, with the
comparison prompt over the kept texts. -/
def comparisonFlow (extractions : List String) : CompareOutcome :=
  if ¬ (2 ≤ extractions.length ∧ extractions.length ≤ 5) then .rejected
  else
    let texts := comparisonTexts extractions
    if texts.length = extractions.length then .invoked (compare_papers_prompt texts)
    else .incomplete

end PaperAnalyzer

namespace PaperAnalyzer

theorem str_concat_filter_ne_empty (pages : List String) :
    str_concat (pages.filter (fun p => p ≠ "")) = str_concat pages := by
  induction pages with
  | nil => rfl
  | cons p rest ih =>
    by_cases hp : p = ""
    · subst hp
      rw [List.filter_cons_of_neg (by simp)]
      rw [ih]
      show str_concat rest = "" ++ str_concat rest
      rw [String.empty_append]
    · rw [List.filter_cons_of_pos (by simp [hp])]
      show p ++ str_concat (List.filter _ rest) = p ++ str_concat rest
      rw [ih]

theorem str_startswith_append (p s : String) :
    str_startswith (p ++ s) p = true := by
  simp [str_startswith, String.data_append, List.isPrefixOf_iff_prefix]

theorem str_concat_all_empty (l : List String) (h : ∀ p ∈ l, p = "") :
    str_concat l = "" := by
  induction l with
  | nil => rfl
  | cons p rest ih =>
    have hp := h p (List.mem_cons_self p rest)
    subst hp
    show "" ++ str_concat rest = ""
    rw [String.empty_append]
    exact ih (fun q hq => h q (List.mem_cons_of_mem _ hq))

/-- C3: for every PDF input, the extractor returns the concatenation of
every page's extracted text in page order with no separator, with pages
yielding no text skipped rather than failed; when the concatenation over
all pages is empty, or the parse raises any error, it instead returns a
failure string distinguished by the literal `ERROR` prefix and carrying a
human-readable message. -/
theorem C3_extractor_contract (pdf : ParsedPdf) :
    (∀ pages, pdf = .ok pages →
      (str_concat pages ≠ "" → extract_text_from_pdf pdf = str_concat pages) ∧
      (str_concat pages = "" →
        extract_text_from_pdf pdf = "ERROR: No extractable text found in PDF." ∧
        str_startswith (extract_text_from_pdf pdf) "ERROR" = true)) ∧
    (∀ e, pdf = .error e →
      extract_text_from_pdf pdf = "ERROR: " ++ e ∧
      str_startswith (extract_text_from_pdf pdf) "ERROR" = true) := by
  constructor
  · intro pages hpg
    subst hpg
    simp only [extract_text_from_pdf, str_concat_filter_ne_empty]
    constructor
    · intro hne
      rw [if_neg hne]
    · intro he
      rw [if_pos he]
      constructor
      · rfl
      · decide
  · intro e he
    subst he
    have hsplit : extract_text_from_pdf (.error e) = "ERROR" ++ (": " ++ e) := by
      show "ERROR: " ++ e = "ERROR" ++ (": " ++ e)
      rw [← String.append_assoc]
      rfl
    refine ⟨rfl, ?_⟩
    rw [hsplit]
    exact str_startswith_append _ _

/-- C3 witness: on the concrete parsed PDF with pages `["ab", ""]` the
extractor returns the page concatenation. -/
theorem C3_extractor_contract_witness :
    str_concat ["ab", ""] ≠ "" ∧
    extract_text_from_pdf (.ok ["ab", ""]) = str_concat ["ab", ""] :=
  ⟨by decide, ((C3_extractor_contract (.ok ["ab", ""])).1 ["ab", ""] rfl).1 (by decide)⟩

/-- C4: for every PDF in which no page has extractable text, the
extractor's result starts with the fixed `ERROR` marker and the
single-paper flow never invokes the downstream analysis step. -/
theorem C4_no_text_never_analyzed (pages : List String)
    (h : ∀ p ∈ pages, p = "") :
    str_startswith (extract_text_from_pdf (.ok pages)) "ERROR" = true ∧
    singlePaperFlow (.ok pages) = none := by
  have hext : extract_text_from_pdf (.ok pages) =
      "ERROR: No extractable text found in PDF." := by
    simp only [extract_text_from_pdf, str_concat_filter_ne_empty]
    rw [if_pos (str_concat_all_empty pages h)]
  constructor
  · rw [hext]
    decide
  · simp only [singlePaperFlow, hext]
    rw [if_pos (by decide)]

/-- C4 witness: a two-page PDF whose pages both yield empty text. -/
theorem C4_no_text_never_analyzed_witness :
    str_startswith (extract_text_from_pdf (.ok ["", ""])) "ERROR" = true ∧
    singlePaperFlow (.ok ["", ""]) = none :=
  C4_no_text_never_analyzed ["", ""] (by decide)

/-- C7: every uploaded batch whose size is outside the 2-5 bound is
rejected by the comparison orchestrator with a validation error and the
model is never invoked for it. -/
theorem C7_bound_rejected (extractions : List String)
    (h : ¬ (2 ≤ extractions.length ∧ extractions.length ≤ 5)) :
    comparisonFlow extractions = .rejected := by
  simp only [comparisonFlow]
  rw [if_pos h]

/-- C7 witness: batches of size 1 and of size 6 are both rejected. -/
theorem C7_bound_rejected_witness :
    comparisonFlow ["a"] = .rejected ∧
    comparisonFlow ["a", "b", "c", "d", "e", "f"] = .rejected :=
  ⟨C7_bound_rejected ["a"] (by decide),
   C7_bound_rejected ["a", "b", "c", "d", "e", "f"] (by decide)⟩

/-- C10: the extractor's success and failure ranges overlap. There is a
PDF whose pages parse successfully into non-empty text, so the extractor
returns that text through its success path, yet the text itself begins
with `ERROR`; and every extraction result starting with `ERROR` is
classified as a failure by the downstream prefix check, so the analysis
step is never invoked for it. -/
theorem C10_success_failure_overlap :
    (∃ pages : List String,
      str_concat pages ≠ "" ∧
      extract_text_from_pdf (.ok pages) = str_concat pages ∧
      str_startswith (extract_text_from_pdf (.ok pages)) "ERROR" = true) ∧
    (∀ pdf : ParsedPdf,
      str_startswith (extract_text_from_pdf pdf) "ERROR" = true →
      singlePaperFlow pdf = none) := by
  constructor
  · exact ⟨["ERROR analysis of the baseline shows gains"], by decide, by decide, by decide⟩
  · intro pdf h
    simp only [singlePaperFlow]
    rw [if_pos h]

/-- C10 witness: the prefix check drops the successfully extracted paper
whose genuine text begins with `ERROR`. -/
theorem C10_success_failure_overlap_witness :
    singlePaperFlow (.ok ["ERROR analysis of the baseline shows gains"]) = none :=
  C10_success_failure_overlap.2 (.ok ["ERROR analysis of the baseline shows gains"])
    (by decide)

/-- C2 counterexample: a batch of three uploads in which the second
extraction fails. The claim says the model call is still performed on the
shrunken set, but the flow ends `incomplete` without invoking the model,
because the kept-texts count no longer equals the file count. -/
theorem C2_counterexample :
    comparisonFlow ["first paper text", "ERROR: parse failed", "third paper text"] =
      .incomplete := by
  decide

/-- C2 amended: in every batch of 2-5 files in which at least one
extraction fails, no failed text enters the comparison set, and the model
call is skipped entirely (the flow invokes the model only when every
extraction succeeded). -/
theorem C2_failure_skips_model (extractions : List String)
    (hb : 2 ≤ extractions.length ∧ extractions.length ≤ 5)
    (hf : ∃ t, t ∈ extractions ∧ str_startswith t "ERROR" = true) :
    (∀ t, t ∈ comparisonTexts extractions → str_startswith t "ERROR" = false) ∧
    comparisonFlow extractions = .incomplete := by
  constructor
  · intro t ht
    have hmem := List.mem_filter.mp ht
    simpa using hmem.2
  · obtain ⟨t, htmem, ht⟩ := hf
    have hne : (comparisonTexts extractions).length ≠ extractions.length := by
      intro he
      have hall := (List.filter_length_eq_length).mp he t htmem
      rw [ht] at hall
      simp at hall
    simp only [comparisonFlow]
    rw [if_neg (by simpa using hb)]
    rw [if_neg hne]

/-- C2 amended witness: the concrete three-file batch with one failed
extraction keeps only clean texts and never reaches the model. -/
theorem C2_failure_skips_model_witness :
    (∀ t, t ∈ comparisonTexts ["first text", "ERROR: bad file", "third text"] →
      str_startswith t "ERROR" = false) ∧
    comparisonFlow ["first text", "ERROR: bad file", "third text"] = .incomplete :=
  C2_failure_skips_model ["first text", "ERROR: bad file", "third text"]
    ⟨by decide, by decide⟩ ⟨"ERROR: bad file", by decide, by decide⟩

/-- C1 counterexample: the claim asserts the optional scalar `novelty`
defaults to the sentinel string rather than null, but the
default-constructed `Methodology` record carries `none` there. -/
theorem C1_counterexample :
    ({} : Methodology).novelty = none ∧
    ({} : Methodology).novelty ≠ some "Not specified" := by
  constructor
  · rfl
  · decide

/-- C1 amended: the list fields of the nested records default to the empty
list, but the optional scalars do not hold the sentinel: `novelty`
defaults to null (`none`) and `url` and `missing_sections` have no default
at all, with the sentinel text substituted only by the renderer. -/
theorem C1_defaults :
    ({} : Methodology).techniques = [] ∧
    ({} : Dataset).processing_steps = [] ∧
    ({} : Results).qualitative = [] ∧
    ({} : Results).benchmarks = [] ∧
    ({} : FutureDirections).author_stated = [] ∧
    ({} : FutureDirections).implied_gaps = [] ∧
    ({} : Methodology).novelty = none ∧
    py_or ({} : Methodology).novelty "Not specified" = "Not specified" ∧
    py_or none "Not found" = "Not found" := by
  refine ⟨rfl, rfl, rfl, rfl, rfl, rfl, rfl, rfl, rfl⟩

/-- C5: for every source text longer than 8000 characters, the
single-paper instruction embeds exactly the first 8000 characters of the
text between the fixed prompt prefix and suffix: the embedded slice has
length exactly 8000 and is a prefix of the source text. -/
theorem C5_single_truncation (text : String) (h : 8000 < text.length) :
    analyze_paper_prompt text =
      analyzePromptPrefix ++ pyslice text 8000 ++ analyzePromptSuffix ∧
    (pyslice text 8000).length = 8000 ∧
    (pyslice text 8000).data <+: text.data := by
  refine ⟨rfl, ?_, ?_⟩
  · show (String.mk (text.data.take 8000)).length = 8000
    rw [String.length_mk, List.length_take]
    have h2 : 8000 < text.data.length := h
    omega
  · show text.data.take 8000 <+: text.data
    exact List.take_prefix _ _

/-- A concrete source text of 8001 characters, used to witness the
truncation property. -/
def longText : String := String.mk (List.replicate 8001 'a')

theorem longText_length : longText.length = 8001 := by
  show (String.mk (List.replicate 8001 'a')).length = 8001
  rw [String.length_mk, List.length_replicate]

/-- C5 witness: on the concrete 8001-character text the embedded slice has
length exactly 8000 and is a prefix of the text. -/
theorem C5_single_truncation_witness :
    8000 < longText.length ∧
    ((pyslice longText 8000).length = 8000 ∧
      (pyslice longText 8000).data <+: longText.data) :=
  ⟨by rw [longText_length]; omega,
   (C5_single_truncation longText (by rw [longText_length]; omega)).2⟩

theorem paperBlocks_eq_concat (i : Nat) (ts : List String) :
    paperBlocks i ts = str_concat (blockList i ts) := by
  induction ts generalizing i with
  | nil => rfl
  | cons t ts ih =>
    show paperBlock i t ++ paperBlocks (i + 1) ts =
      paperBlock i t ++ str_concat (blockList (i + 1) ts)
    rw [ih]

theorem blockList_length (i : Nat) (ts : List String) :
    (blockList i ts).length = ts.length := by
  induction ts generalizing i with
  | nil => rfl
  | cons t ts ih =>
    show (blockList (i + 1) ts).length + 1 = ts.length + 1
    rw [ih]

theorem blockList_getElem (i k : Nat) (ts : List String) :
    (blockList i ts)[k]? = (ts[k]?).map (fun t => paperBlock (i + k) t) := by
  induction ts generalizing i k with
  | nil => simp [blockList]
  | cons t ts ih =>
    cases k with
    | zero => simp [blockList]
    | succ k =>
      simp only [blockList, List.getElem?_cons_succ]
      rw [ih (i + 1) k]
      have harith : i + 1 + k = i + (k + 1) := by omega
      rw [harith]

/-- C6: for every list of 2 to 5 texts, the comparison instruction is the
fixed preamble, then exactly one block per text, labelled `Paper 1`
through `Paper N` in list order and embedding at most the first 4000
characters of the corresponding text, then the closing instruction. -/
theorem C6_compare_blocks (texts : List String)
    (h : 2 ≤ texts.length ∧ texts.length ≤ 5) :
    ∃ blocks : List String,
      blocks.length = texts.length ∧
      compare_papers_prompt texts =
        comparePreamble ++ str_concat blocks ++ compareClosing ∧
      ∀ k, k < texts.length →
        blocks[k]? = (texts[k]?).map (fun t =>
          "Paper " ++ toString (k + 1) ++ " (truncated):\n" ++
            pyslice t 4000 ++ "\n\n") ∧
        ∀ t, texts[k]? = some t →
          (pyslice t 4000).length ≤ 4000 ∧ (pyslice t 4000).data <+: t.data := by
  refine ⟨blockList 1 texts, blockList_length 1 texts, ?_, ?_⟩
  · rw [compare_papers_prompt, paperBlocks_eq_concat]
  · intro k _
    constructor
    · rw [blockList_getElem]
      have harith : 1 + k = k + 1 := by omega
      rw [harith]
      rfl
    · intro t _
      constructor
      · show (String.mk (t.data.take 4000)).length ≤ 4000
        rw [String.length_mk, List.length_take]
        omega
      · show t.data.take 4000 <+: t.data
        exact List.take_prefix _ _

/-- C6 witness: the two-text batch `["alpha", "beta"]` satisfies the bound
and the block decomposition. -/
theorem C6_compare_blocks_witness :
    (2 ≤ (["alpha", "beta"] : List String).length ∧
      (["alpha", "beta"] : List String).length ≤ 5) ∧
    (∃ blocks : List String,
      blocks.length = (["alpha", "beta"] : List String).length ∧
      compare_papers_prompt ["alpha", "beta"] =
        comparePreamble ++ str_concat blocks ++ compareClosing ∧
      ∀ k, k < (["alpha", "beta"] : List String).length →
        blocks[k]? = ((["alpha", "beta"] : List String)[k]?).map (fun t =>
          "Paper " ++ toString (k + 1) ++ " (truncated):\n" ++
            pyslice t 4000 ++ "\n\n") ∧
        ∀ t, (["alpha", "beta"] : List String)[k]? = some t →
          (pyslice t 4000).length ≤ 4000 ∧ (pyslice t 4000).data <+: t.data) :=
  ⟨⟨by decide, by decide⟩, C6_compare_blocks ["alpha", "beta"] ⟨by decide, by decide⟩⟩

set_option maxRecDepth 8000
set_option maxHeartbeats 2000000

/-- C9: the renderer is total. For every validly constructed record,
whatever its optional fields hold (including `url` and `novelty` at
`none`), `to_markdown` computes a markdown document, always beginning with
the title heading; there is no failure value in its range. -/
theorem C9_to_markdown_total (p : PaperAnalysis) :
    ∃ rest : String, to_markdown p = "# " ++ rest := by
  simp only [to_markdown, mdList, List.cons_append, py_join, String.append_assoc]
  exact ⟨_, rfl⟩

/-- C8: for every record with all list fields empty, `url` and `novelty`
empty, the rendered document is exactly the fixed markdown skeleton: the
title and year heading, the link line, the Methodology, Dataset, Results,
Future Directions sections, the confidence line and the Missing Data
header, in that order, with zero bullet lines under any list section. -/
theorem C8_render_empty (p : PaperAnalysis)
    (hurl : p.url = none)
    (hnov : p.methodology.novelty = none)
    (htech : p.methodology.techniques = [])
    (hsteps : p.dataset.processing_steps = [])
    (hquant : p.results.quantitative = [])
    (hqual : p.results.qualitative = [])
    (hbench : p.results.benchmarks = [])
    (hauth : p.future_directions.author_stated = [])
    (himp : p.future_directions.implied_gaps = [])
    (hmiss : p.missing_sections = []) :
    to_markdown p =
      "# " ++ p.title ++ " (" ++ toString p.year ++
      ")\n**Link**: Not found\n\n## Methodology\n* Core approach: " ++
      p.methodology.core_approach ++
      "\n* Techniques:\n* Novelty: Not specified\n\n## Dataset\n* Source: " ++
      p.dataset.source ++ "\n* Size/Type: " ++ p.dataset.size ++ " | " ++
      p.dataset.data_type ++
      "\n* Processing:\n\n## Results\n* Quantitative:\n* Qualitative:\n* Benchmarks:\n\n## Future Directions\n* Author-stated:\n* Implied gaps:\n\n**Confidence Score**: " ++
      format2f p.confidence_score ++ "%\n\n## Missing Data" := by
  simp only [to_markdown, mdList, hurl, hnov, htech, hsteps, hquant, hqual, hbench,
    hauth, himp, hmiss, List.map_nil, py_or, List.nil_append, List.append_nil,
    List.cons_append, py_join, String.append_assoc]
  rfl

/-- A concrete record with every list field empty and both optional
scalars at `none`, used to witness the empty-record rendering. -/
def samplePaper : PaperAnalysis :=
  { title := "Sample"
    year := 2020
    url := none
    methodology := {}
    dataset := {}
    results := {}
    future_directions := {}
    confidence_score := 95
    missing_sections := [] }

/-- C8 witness: the concrete all-default record renders to the markdown
skeleton with zero bullets. -/
theorem C8_render_empty_witness :
    to_markdown samplePaper =
      "# " ++ "Sample" ++ " (" ++ toString (2020 : Int) ++
      ")\n**Link**: Not found\n\n## Methodology\n* Core approach: " ++
      "Not specified" ++
      "\n* Techniques:\n* Novelty: Not specified\n\n## Dataset\n* Source: " ++
      "Not specified" ++ "\n* Size/Type: " ++ "Not specified" ++ " | " ++
      "Not specified" ++
      "\n* Processing:\n\n## Results\n* Quantitative:\n* Qualitative:\n* Benchmarks:\n\n## Future Directions\n* Author-stated:\n* Implied gaps:\n\n**Confidence Score**: " ++
      format2f 95 ++ "%\n\n## Missing Data" :=
  C8_render_empty samplePaper rfl rfl rfl rfl rfl rfl rfl rfl rfl rfl

end PaperAnalyzer
